import Mathlib

/-
Verification of the invoice-copilot repository specification.

The embedding below translates the TypeScript frontend modules
(frontend/src/contexts/AppContext.tsx, frontend/src/lib/tsxAgent.ts,
frontend/src/lib/chatApi.ts, frontend/src/lib/documentApi.ts) and — where
the backend Python sources are documented only through the repository
READMEs and the specification — models the backend components
(AgentLoop, FileOperationsClient, SemanticSearchClient) from the
specification text.
-/

namespace InvoiceCopilot

/-! ## Data model of the frontend (types/index.ts and chatApi.ts) -/

/-- Message role, from the union type in types/index.ts: user or assistant. -/
inductive Role where
  | user
  | assistant
deriving DecidableEq, Repr

/-- Optional message kind, from types/index.ts: text, chart, table, code or tsx. -/
inductive MessageKind where
  | text
  | chart
  | table
  | code
  | tsx
deriving DecidableEq, Repr

/-- The Message record of types/index.ts.  Timestamps are modelled as Nat
(milliseconds since the epoch); the open metadata record is modelled as a
key-value list. -/
structure Message where
  id : String
  content : String
  role : Role
  timestamp : Nat
  kind : Option MessageKind
  metadata : Option (List (String × String))
deriving DecidableEq, Repr

/-- Chart type union of types/index.ts: bar, line, pie, area or scatter. -/
inductive ChartType where
  | bar
  | line
  | pie
  | area
  | scatter
deriving DecidableEq, Repr

/-- The ChartConfig record of types/index.ts.  The untyped data and options
payloads are not inspected by any claim and are modelled as string lists. -/
structure ChartConfig where
  ctype : ChartType
  data : List String
  options : List (String × String)
  title : Option String
deriving DecidableEq, Repr

/-- Workspace content union of types/index.ts: default, expenses-report or null. -/
inductive WorkspaceContent where
  | default
  | expensesReport
deriving DecidableEq, Repr

/-- The AppState record of types/index.ts: UI state, data state, dynamic
workspace state and session state.  Uploaded File objects are modelled by
their names. -/
structure AppState where
  isGenerating : Bool
  messages : List Message
  currentChart : Option ChartConfig
  uploadedInvoices : List String
  workspaceContent : Option WorkspaceContent
  sessionId : String
deriving DecidableEq, Repr

/-- The AppAction union of AppContext.tsx.  RESET_SESSION reads Date.now()
for the fresh session id; that ambient read is made explicit as the
constructor argument. -/
inductive AppAction where
  | setGenerating (b : Bool)
  | addMessage (m : Message)
  | updateMessages (ms : List Message)
  | setChart (c : Option ChartConfig)
  | resetSession (now : Nat)
deriving DecidableEq, Repr

/-- The initial state literal of AppContext.tsx (its sessionId reads
Date.now(), made explicit here).  The source literal omits
uploadedInvoices and workspaceContent; at runtime they are undefined,
modelled as the empty list and none. -/
def appInitialState (now : Nat) : AppState :=
  { isGenerating := false
    messages := []
    currentChart := none
    uploadedInvoices := []
    workspaceContent := none
    sessionId := "session_" ++ toString now }

/-- The appReducer function of AppContext.tsx, case by case over the
action union.  Each branch spreads the previous state and replaces the
named field, exactly as the source object spreads do. -/
def appReducer (state : AppState) (action : AppAction) : AppState :=
  match action with
  | .setGenerating b => { state with isGenerating := b }
  | .addMessage m => { state with messages := state.messages ++ [m] }
  | .updateMessages ms => { state with messages := ms }
  | .setChart c => { state with currentChart := c }
  | .resetSession now => appInitialState now

/-! ## isUIRequest (frontend/src/lib/tsxAgent.ts)

Strings are modelled as lists of characters so that the JavaScript
toLowerCase / includes pipeline is an explicit, executable function. -/

/-- Character-wise lowercasing, the model of JavaScript
message.toLowerCase() (the keyword set is ASCII, where the two agree). -/
def lowerChars (s : List Char) : List Char := s.map Char.toLower

/-- Boolean prefix test on character lists. -/
def prefixAt : List Char → List Char → Bool
  | [], _ => true
  | _ :: _, [] => false
  | c :: cs, d :: ds => c == d && prefixAt cs ds

/-- Boolean substring test on character lists, the model of JavaScript
String.prototype.includes. -/
def containsSub (needle : List Char) : List Char → Bool
  | [] => needle.isEmpty
  | c :: t => prefixAt needle (c :: t) || containsSub needle t

/-- The fixed keyword list of isUIRequest in tsxAgent.ts, in source order. -/
def uiKeywords : List (List Char) :=
  [ "hello world".data, "landing page".data, "component".data, "button".data,
    "form".data, "add text".data, "create".data, "design".data, "ui".data,
    "interface".data, "layout".data, "card".data, "modal".data, "navbar".data,
    "footer".data, "sidebar".data, "dashboard".data, "table".data,
    "chart".data, "graph".data, "menu".data, "header".data, "content".data ]

/-- The isUIRequest function of tsxAgent.ts: some keyword is contained in
the lowercased message. -/
def isUIRequest (message : List Char) : Bool :=
  uiKeywords.any (fun keyword => containsSub keyword (lowerChars message))

/-! ## chatApi (src/unnamed chatApi.ts): sendChatMessage -/

namespace ChatApi

/-- The ChatRequest interface of chatApi.ts: the body posted to
/api/chat/message. -/
structure ChatRequest where
  message : String
  workspace_dir : String
  max_iterations : Nat
deriving DecidableEq, Repr

/-- The ChatResponse interface of chatApi.ts. -/
structure ChatResponse where
  success : Bool
  message : String
  response : String
  workspace_dir : String
  timestamp : String
  error : Option String
deriving DecidableEq, Repr

/-- Outcome of the fetch call inside sendChatMessage: a 2xx response whose
JSON body parsed as a ChatResponse, a non-ok HTTP status with its body
text, or a rejected fetch promise carrying an Error message. -/
inductive FetchOutcome where
  | ok (body : ChatResponse)
  | httpError (status : Nat) (text : String)
  | networkError (msg : String)
deriving DecidableEq, Repr

/-- The default value of the workspaceDir parameter of sendChatMessage. -/
def defaultWorkspaceDir : String := "frontend/src/components/workspace"

/-- The request body literal built by sendChatMessage: message as given,
workspace_dir from the (defaulted) parameter, max_iterations hard-coded
to 10.  A caller that omits workspaceDir is the none case. -/
def chatRequestBody (message : String) (workspaceDir : Option String) : ChatRequest :=
  { message := message
    workspace_dir := workspaceDir.getD defaultWorkspaceDir
    max_iterations := 10 }

/-- The message of the Error thrown on a non-ok HTTP status in
sendChatMessage. -/
def httpErrorText (status : Nat) (text : String) : String :=
  "HTTP error! status: " ++ toString status ++ ", message: " ++ text

/-- The ChatResponse literal returned from the catch block of
sendChatMessage: success false, the original message, a Failed-to-send
response text, the (defaulted) workspace dir, the current time, and the
error field set to the Error message. -/
def catchResponse (message wd now errMsg : String) : ChatResponse :=
  { success := false
    message := message
    response := "Failed to send message: Error: " ++ errMsg
    workspace_dir := wd
    timestamp := now
    error := some errMsg }

/-- How sendChatMessage turns the fetch outcome into its return value: a
parsed ok body is returned as is; a non-ok status throws inside the try
block and is caught; a rejected fetch is caught directly. -/
def handleFetchOutcome (message wd now : String) : FetchOutcome → ChatResponse
  | .ok body => body
  | .httpError status text => catchResponse message wd now (httpErrorText status text)
  | .networkError msg => catchResponse message wd now msg

/-- The sendChatMessage function of chatApi.ts.  The ambient pieces are
explicit parameters: now is new Date().toISOString() and transport is the
fetch of the single POST the function makes, applied to the JSON body it
serializes.  The function is total: every outcome yields a ChatResponse,
none is rethrown. -/
def sendChatMessage (message : String) (workspaceDir : Option String) (now : String)
    (transport : ChatRequest → FetchOutcome) : ChatResponse :=
  handleFetchOutcome message (workspaceDir.getD defaultWorkspaceDir) now
    (transport (chatRequestBody message workspaceDir))

end ChatApi

/-! ## tsxAgent (frontend/src/lib/tsxAgent.ts) and the window global of
WorkspaceArea.tsx -/

namespace TsxAgent

/-- The action union of the tsxAgent ChatResponse:
tsx_generated, no_tsx_needed or error. -/
inductive AgentAction where
  | tsxGenerated
  | noTsxNeeded
  | error
deriving DecidableEq, Repr

/-- The ChatResponse interface of tsxAgent.ts (distinct from the chatApi
one): the enable-dynamic-UI flag travels as the explicit field
dynamic_content_enabled. -/
structure ChatResponse where
  success : Bool
  response : String
  action : AgentAction
  dynamic_content_enabled : Bool
  message : String
deriving DecidableEq, Repr

/-- The process-wide window.setUseDynamicContent binding: absent until
WorkspaceArea mounts; once mounted it holds the current value of the
useDynamicContent React state that the registered setter writes. -/
inductive WindowBinding where
  | absent
  | mounted (useDynamicContent : Bool)
deriving DecidableEq, Repr

/-- The effect on window state of WorkspaceArea mounting: useState(false)
plus the effect that assigns window.setUseDynamicContent. -/
def mountWorkspaceArea (_w : WindowBinding) : WindowBinding :=
  WindowBinding.mounted false

/-- The setDynamicContentEnabled function of tsxAgent.ts as a transformer
of the window state it reads and writes: if the global setter is present
it is called with the flag (updating the mounted state), otherwise only a
console warning happens and the state is unchanged. -/
def setDynamicContentEnabled (enabled : Bool) : WindowBinding → WindowBinding
  | .absent => .absent
  | .mounted _ => .mounted enabled

/-- The processUIRequest function of tsxAgent.ts, with the network reply
of sendChatToAgent given as the resp argument and the window state
explicit: when the reply is successful and carries
dynamic_content_enabled, setDynamicContentEnabled true is invoked on the
window global; the reply is returned either way. -/
def processUIRequest (resp : ChatResponse) (w : WindowBinding) :
    ChatResponse × WindowBinding :=
  if resp.success && resp.dynamic_content_enabled then
    (resp, setDynamicContentEnabled true w)
  else
    (resp, w)

/-- A concrete successful agent reply carrying the dynamic-content flag,
used to exercise processUIRequest on concrete input. -/
def demoAgentReply : ChatResponse :=
  { success := true, response := "generated", action := AgentAction.tsxGenerated
    dynamic_content_enabled := true, message := "ok" }

end TsxAgent

/-! ## Backend agent loop

The backend Python sources (agent.py and the FastAPI endpoints) are not
part of the source tree here; only their READMEs and the specification
describe them.  The loop below is therefore modelled from the
state machine and data model of the specification. -/

namespace AgentLoop

/-- Modelled from the spec: the Decision record produced by the missing
backend DecisionEngine (agent.py) — tool name, free-text justification,
parameter bindings. -/
structure Decision where
  tool : String
  reason : String
  params : List (String × String)
deriving DecidableEq, Repr

/-- Modelled from the spec: the ToolResult record of the missing backend
— success flag and tool-specific payload. -/
structure ToolResult where
  success : Bool
  payload : String
deriving DecidableEq, Repr

/-- Modelled from the spec: a HistoryEntry is a (Decision, ToolResult,
timestamp) triple appended in chronological order. -/
structure HistoryEntry where
  decision : Decision
  result : ToolResult
  timestamp : Nat
deriving DecidableEq, Repr

/-- Modelled from the spec: the outcome of one DecisionEngine.decide call
of the missing backend — either a parsed Decision or a
MalformedDecisionError when the structured output could not be parsed. -/
inductive EngineReply where
  | ok (d : Decision)
  | malformed
deriving DecidableEq, Repr

/-- Modelled from the spec: the per-request state machine phases. -/
inductive LoopPhase where
  | awaitingDecision
  | executingTool
  | terminated
deriving DecidableEq, Repr

/-- Modelled from the spec: the observable outcome of one AgentLoop.run
— the ordered history, the names of the tools actually executed (in
execution order), the final phase and the synthesized response. -/
structure RunTrace where
  history : List HistoryEntry
  executed : List String
  phase : LoopPhase
  response : String
deriving DecidableEq, Repr

/-- Modelled from the spec: the fail-closed ToolResult recorded when a
Decision names no registered tool. -/
def noToolResult : ToolResult :=
  { success := false, payload := "no applicable tool" }

/-- Modelled from the spec: the iterate-decide-execute-record cycle of
the missing backend AgentLoop, by recursion on the remaining iteration
budget.  The engine and the tool executor are the two external collaborators of the loop, passed
as oracles; fails counts consecutive
MalformedDecisionError outcomes.  A finish/respond sentinel, budget
exhaustion, or two consecutive engine failures terminate; a Decision
naming a registered tool is executed and recorded; a Decision naming an
unregistered tool is recorded with the no-applicable-tool outcome and is
never passed to the executor. -/
def runLoopAux (registry : List String) (engine : List HistoryEntry → EngineReply)
    (exec : Decision → ToolResult) :
    Nat → Nat → List HistoryEntry → List String → RunTrace
  | 0, _, hist, execd =>
      { history := hist, executed := execd, phase := .terminated
        response := "iteration budget exhausted: best-effort summary of prior results" }
  | fuel + 1, fails, hist, execd =>
      match engine hist with
      | .malformed =>
          if 2 ≤ fails + 1 then
            { history := hist, executed := execd, phase := .terminated
              response := "two consecutive malformed decisions" }
          else
            runLoopAux registry engine exec fuel (fails + 1) hist execd
      | .ok d =>
          if d.tool = "finish" ∨ d.tool = "respond" then
            { history := hist, executed := execd, phase := .terminated
              response := d.reason }
          else if d.tool ∈ registry then
            runLoopAux registry engine exec fuel 0
              (hist ++ [{ decision := d, result := exec d, timestamp := hist.length }])
              (execd ++ [d.tool])
          else
            runLoopAux registry engine exec fuel 0
              (hist ++ [{ decision := d, result := noToolResult, timestamp := hist.length }])
              execd

/-- Modelled from the spec: AgentLoop.run — the loop started in the
AWAITING_DECISION phase with empty history and the configured iteration
budget. -/
def run (registry : List String) (engine : List HistoryEntry → EngineReply)
    (exec : Decision → ToolResult) (maxIterations : Nat) : RunTrace :=
  runLoopAux registry engine exec maxIterations 0 [] []

/-- A demonstration engine used to exercise the loop on concrete input:
it picks the read_file tool on the first iteration and finishes on the
second. -/
def demoEngine (hist : List HistoryEntry) : EngineReply :=
  if hist.length = 0 then
    .ok { tool := "read_file", reason := "inspect the workspace", params := [] }
  else
    .ok { tool := "finish", reason := "done", params := [] }

/-- A demonstration tool executor that always succeeds. -/
def demoExec (_d : Decision) : ToolResult :=
  { success := true, payload := "ok" }

/-- A Decision naming a tool outside the registry, used to exercise the
fail-closed branch on concrete input. -/
def mysteryDecision : Decision :=
  { tool := "mystery_tool", reason := "try an unregistered tool", params := [] }

/-- A demonstration engine that always proposes the unregistered tool. -/
def unknownEngine (_hist : List HistoryEntry) : EngineReply :=
  EngineReply.ok mysteryDecision

end AgentLoop

/-! ## Backend file operations

The backend FileOperationsClient is likewise absent from the source tree;
it is modelled from the specification: every path is resolved against the
workspace root and rejected with AccessDeniedError when the resolved
absolute path escapes the root. -/

namespace FileOps

/-- Modelled from the spec: one segment of a request path — a parent
step (..) or a named component. -/
inductive PathSeg where
  | up
  | name (s : String)
deriving DecidableEq, Repr

/-- Modelled from the spec: a path argument to a file operation — an
absolute or root-relative sequence of segments. -/
structure ReqPath where
  absolute : Bool
  segs : List PathSeg
deriving DecidableEq, Repr

/-- Modelled from the spec: resolution of the segments over an absolute
path accumulator; a parent step pops the last component (at the
filesystem root it stays put, as POSIX resolution does). -/
def resolveSegs : List String → List PathSeg → List String
  | acc, [] => acc
  | acc, PathSeg.up :: rest => resolveSegs acc.dropLast rest
  | acc, PathSeg.name s :: rest => resolveSegs (acc ++ [s]) rest

/-- Modelled from the spec: a request path resolved against the workspace
root — relative paths start at the root, absolute paths at the
filesystem root. -/
def resolveRequest (root : List String) (p : ReqPath) : List String :=
  resolveSegs (if p.absolute then [] else root) p.segs

/-- Boolean test that the first path is a leading prefix of the second:
the resolved path is inside the workspace root exactly when the root is a
prefix of it. -/
def rootPrefix : List String → List String → Bool
  | [], _ => true
  | _ :: _, [] => false
  | a :: as, b :: bs => a == b && rootPrefix as bs

/-- Modelled from the spec: the error taxonomy of the file client —
AccessDeniedError for escaping paths, NotFoundError for missing files. -/
inductive FileError where
  | accessDenied
  | notFound
deriving DecidableEq, Repr

/-- The filesystem model: an association of absolute paths to contents. -/
def Fs : Type := List (List String × String)

/-- Content lookup in the filesystem model. -/
def lookupFs (fs : Fs) (p : List String) : Option String :=
  (fs.find? (fun e => e.1 == p)).map (fun e => e.2)

/-- The observable outcome of one file operation: its result and the list
of absolute paths whose filesystem entries were touched. -/
structure OpResult (α : Type) where
  outcome : Except FileError α
  accessed : List (List String)

/-- Modelled from the spec: read(path) — resolve against the root, fail
closed with AccessDeniedError (touching nothing) when the resolved path
escapes, NotFoundError on a missing file, else the content. -/
def readOp (fs : Fs) (root : List String) (p : ReqPath) : OpResult String :=
  let abs := resolveRequest root p
  if rootPrefix root abs then
    match lookupFs fs abs with
    | some c => { outcome := .ok c, accessed := [abs] }
    | none => { outcome := .error .notFound, accessed := [abs] }
  else
    { outcome := .error .accessDenied, accessed := [] }

/-- Modelled from the spec: list(dir) — same guard, then the entries
under the resolved directory. -/
def listOp (fs : Fs) (root : List String) (p : ReqPath) : OpResult (List (List String)) :=
  let abs := resolveRequest root p
  if rootPrefix root abs then
    { outcome := .ok ((fs.map (fun e => e.1)).filter (fun q => rootPrefix abs q))
      accessed := [abs] }
  else
    { outcome := .error .accessDenied, accessed := [] }

/-- Modelled from the spec: write(path, content) — same guard, then the
updated filesystem with the content fully visible at the resolved path. -/
def writeOp (fs : Fs) (root : List String) (p : ReqPath) (content : String) : OpResult Fs :=
  let abs := resolveRequest root p
  if rootPrefix root abs then
    { outcome := .ok ((abs, content) :: fs.filter (fun e => !(e.1 == abs)))
      accessed := [abs] }
  else
    { outcome := .error .accessDenied, accessed := [] }

/-- Modelled from the spec: delete(path) — same guard, NotFoundError on a
missing file, else the filesystem without the entry. -/
def deleteOp (fs : Fs) (root : List String) (p : ReqPath) : OpResult Fs :=
  let abs := resolveRequest root p
  if rootPrefix root abs then
    match lookupFs fs abs with
    | some _ => { outcome := .ok (fs.filter (fun e => !(e.1 == abs))), accessed := [abs] }
    | none => { outcome := .error .notFound, accessed := [abs] }
  else
    { outcome := .error .accessDenied, accessed := [] }

/-- The path ../etc/passwd of the traversal example in the specification. -/
def passwdPath : ReqPath :=
  { absolute := false, segs := [PathSeg.up, PathSeg.name "etc", PathSeg.name "passwd"] }

end FileOps

/-! ## Backend semantic search

The backend semantic_search utility is absent from the source tree; it is
modelled from the specification and from the semantic-search README: the
convenience variants build a metadata filter and delegate to the raw
search, and a missing API key or index name is a structured
ConfigurationError, never a silent empty success. -/

namespace SemanticSearch

/-- Modelled from the spec: the metadata carried by an indexed record —
category, source filename, content excerpt. -/
structure MatchMetadata where
  category : String
  original_filename : String
  content : String
deriving DecidableEq, Repr

/-- Modelled from the spec: one record stored in the vector index. -/
structure IndexRecord where
  id : String
  metadata : MatchMetadata
deriving DecidableEq, Repr

/-- Modelled from the spec: a scored search match. -/
structure SearchMatch where
  id : String
  score : Rat
  metadata : MatchMetadata
deriving DecidableEq, Repr

/-- The backing index state: records tagged with their namespace. -/
def IndexState : Type := List (String × IndexRecord)

/-- Modelled from the spec: the metadata filter predicates the
convenience variants build — category equality or filename equality. -/
inductive MetaFilter where
  | categoryEq (c : String)
  | filenameEq (f : String)
deriving DecidableEq, Repr

/-- Filter evaluation on the metadata of a record; no filter accepts all. -/
def matchesFilter : Option MetaFilter → MatchMetadata → Bool
  | none, _ => true
  | some (MetaFilter.categoryEq c), md => md.category == c
  | some (MetaFilter.filenameEq f), md => md.original_filename == f

/-- The service-imposed ceiling on top_k (Pinecone limit 10000). -/
def maxTopK : Nat := 10000

/-- Insertion into a best-score-first list, used to order matches. -/
def insertByScore (m : SearchMatch) : List SearchMatch → List SearchMatch
  | [] => [m]
  | x :: xs => if x.score < m.score then m :: x :: xs else x :: insertByScore m xs

/-- Best-score-first ordering of a match list. -/
def sortByScore (ms : List SearchMatch) : List SearchMatch :=
  ms.foldr insertByScore []

/-- Modelled from the spec: the external vector-index query contract —
restrict to the namespace, apply the metadata filter, score each record
against the query with the embedding similarity oracle sim, order best
score first, and return at most the clamped top_k. -/
def pineconeQuery (sim : String → String → Rat) (st : IndexState)
    (query ns : String) (topK : Nat) (filter : Option MetaFilter) : List SearchMatch :=
  let inNs := (st.filter (fun e => e.1 == ns)).map (fun e => e.2)
  let filtered := inNs.filter (fun r => matchesFilter filter r.metadata)
  let scored := filtered.map (fun r =>
    { id := r.id, score := sim query r.metadata.content, metadata := r.metadata })
  (sortByScore scored).take (min topK maxTopK)

/-- Modelled from the spec: the response record of the search tool, with
success flag, ordered results, formatted text, echoed query and
namespace (field ns), total count, and a structured error. -/
structure SearchResponse where
  success : Bool
  results : List SearchMatch
  formatted_results : String
  query : String
  ns : String
  total_results : Nat
  error : Option String
deriving DecidableEq, Repr

/-- Modelled from the spec: the human-readable result formatting. -/
def formatSearchResults (results : List SearchMatch) : String :=
  "Found " ++ toString results.length ++ " results"

/-- Modelled from the spec: the structured failure returned when the API
key or index name is absent — success false, empty results, and a
ConfigurationError marker, distinguishable from an empty successful
search by the success flag and the error field. -/
def configErrorResponse (query ns : String) : SearchResponse :=
  { success := false, results := [], formatted_results := "", query := query
    ns := ns, total_results := 0
    error := some "ConfigurationError: Pinecone API key or index name not provided" }

/-- Modelled from the spec: the semantic_search entry point of the
missing backend utility — the configuration check, then the vector-index
query and the successful response. -/
def semantic_search (apiKey indexName : Option String)
    (sim : String → String → Rat) (st : IndexState)
    (query ns : String) (topK : Nat) (filter : Option MetaFilter) : SearchResponse :=
  if apiKey.isNone || indexName.isNone then
    configErrorResponse query ns
  else
    let results := pineconeQuery sim st query ns topK filter
    { success := true, results := results
      formatted_results := formatSearchResults results
      query := query, ns := ns, total_results := results.length, error := none }

/-- Modelled from the spec: search_by_category — pure sugar that builds
the category-equality filter and delegates to semantic_search. -/
def search_by_category (apiKey indexName : Option String)
    (sim : String → String → Rat) (st : IndexState)
    (query category ns : String) (topK : Nat) : SearchResponse :=
  semantic_search apiKey indexName sim st query ns topK (some (MetaFilter.categoryEq category))

/-- Modelled from the spec: search_by_filename — pure sugar that builds
the filename-equality filter and delegates to semantic_search. -/
def search_by_filename (apiKey indexName : Option String)
    (sim : String → String → Rat) (st : IndexState)
    (query filename ns : String) (topK : Nat) : SearchResponse :=
  semantic_search apiKey indexName sim st query ns topK (some (MetaFilter.filenameEq filename))

/-- A concrete embedding-similarity oracle used to evaluate the search on
concrete input. -/
def simDemo (_query _content : String) : Rat := 0

end SemanticSearch

/-! ## Theorems -/

/-- Helper: the boolean prefix test holds exactly when the haystack
starts with the needle. -/
theorem prefixAt_iff (needle hay : List Char) :
    prefixAt needle hay = true ↔ ∃ r, hay = needle ++ r := by
  induction needle generalizing hay with
  | nil => simp [prefixAt]
  | cons c cs ih =>
    cases hay with
    | nil => simp [prefixAt]
    | cons d ds =>
      simp only [prefixAt, Bool.and_eq_true, beq_iff_eq, ih]
      constructor
      · rintro ⟨rfl, r, rfl⟩
        exact ⟨r, rfl⟩
      · rintro ⟨r, h⟩
        injection h with h1 h2
        exact ⟨h1.symm, r, h2⟩

/-- Helper: the boolean substring test holds exactly when the haystack
splits around the needle. -/
theorem containsSub_iff (needle hay : List Char) :
    containsSub needle hay = true ↔ ∃ l r, hay = l ++ needle ++ r := by
  induction hay with
  | nil =>
    simp only [containsSub, List.isEmpty_iff]
    constructor
    · rintro rfl
      exact ⟨[], [], rfl⟩
    · rintro ⟨l, r, h⟩
      rcases List.append_eq_nil.mp h.symm with ⟨h1, h2⟩
      exact (List.append_eq_nil.mp h1).2
  | cons c t ih =>
    simp only [containsSub, Bool.or_eq_true, prefixAt_iff, ih]
    constructor
    · rintro (⟨r, h⟩ | ⟨l, r, h⟩)
      · exact ⟨[], r, by simp [h]⟩
      · exact ⟨c :: l, r, by simp [h]⟩
    · rintro ⟨l, r, h⟩
      cases l with
      | nil =>
        left
        exact ⟨r, by simpa using h⟩
      | cons x xs =>
        right
        injection h with h1 h2
        exact ⟨xs, r, h2⟩

/-- C10: isUIRequest is case-insensitive — it holds exactly when the
lowercased message contains one of the fixed UI keywords as a substring,
and two messages with the same lowercase form get the same answer. -/
theorem isUIRequest_case_insensitive :
    (∀ m : List Char, isUIRequest m = true ↔
      ∃ k ∈ uiKeywords, ∃ l r, lowerChars m = l ++ k ++ r) ∧
    (∀ m mo : List Char, lowerChars m = lowerChars mo →
      isUIRequest m = isUIRequest mo) := by
  constructor
  · intro m
    unfold isUIRequest
    rw [List.any_eq_true]
    constructor
    · rintro ⟨k, hk, hc⟩
      exact ⟨k, hk, (containsSub_iff k (lowerChars m)).mp hc⟩
    · rintro ⟨k, hk, hc⟩
      exact ⟨k, hk, (containsSub_iff k (lowerChars m)).mpr hc⟩
  · intro m mo h
    unfold isUIRequest
    rw [h]

/-- C10 witness: two concrete messages differing only in letter case get
the same isUIRequest verdict. -/
theorem isUIRequest_case_insensitive_witness :
    lowerChars "Create A CHART".data = lowerChars "create a chart".data ∧
    isUIRequest "Create A CHART".data = isUIRequest "create a chart".data :=
  ⟨by decide, isUIRequest_case_insensitive.2 _ _ (by decide)⟩

/-- C9: the ADD_MESSAGE case of appReducer appends the payload at the end
of the messages list and leaves every other field of the state
unchanged. -/
theorem appReducer_addMessage_frame (s : AppState) (m : Message) :
    (appReducer s (AppAction.addMessage m)).messages = s.messages ++ [m] ∧
    (appReducer s (AppAction.addMessage m)).isGenerating = s.isGenerating ∧
    (appReducer s (AppAction.addMessage m)).currentChart = s.currentChart ∧
    (appReducer s (AppAction.addMessage m)).uploadedInvoices = s.uploadedInvoices ∧
    (appReducer s (AppAction.addMessage m)).workspaceContent = s.workspaceContent ∧
    (appReducer s (AppAction.addMessage m)).sessionId = s.sessionId :=
  ⟨rfl, rfl, rfl, rfl, rfl, rfl⟩

/-- C7: the body sendChatMessage posts carries the given message, the
hard-coded max_iterations of 10, and the workspace_dir defaulted to
frontend/src/components/workspace when the caller omits it; the function
invokes its transport exactly on that body. -/
theorem sendChatMessage_request_contract (msg : String) (wd : Option String)
    (now : String) (transport : ChatApi.ChatRequest → ChatApi.FetchOutcome) :
    (ChatApi.chatRequestBody msg wd).message = msg ∧
    (ChatApi.chatRequestBody msg wd).max_iterations = 10 ∧
    (ChatApi.chatRequestBody msg wd).workspace_dir = wd.getD ChatApi.defaultWorkspaceDir ∧
    (ChatApi.chatRequestBody msg none).workspace_dir = "frontend/src/components/workspace" ∧
    ChatApi.sendChatMessage msg wd now transport =
      ChatApi.handleFetchOutcome msg (wd.getD ChatApi.defaultWorkspaceDir) now
        (transport (ChatApi.chatRequestBody msg wd)) :=
  ⟨rfl, rfl, rfl, rfl, rfl⟩

/-- C4: sendChatMessage is total (it returns a ChatResponse for every
fetch outcome), and whenever the fetch does not produce a parsed ok body
— an HTTP error status or a rejected fetch — the returned value has
success false and the error field set. -/
theorem sendChatMessage_structured_failure (msg : String) (wd : Option String)
    (now : String) (transport : ChatApi.ChatRequest → ChatApi.FetchOutcome)
    (h : ∀ body : ChatApi.ChatResponse,
      transport (ChatApi.chatRequestBody msg wd) ≠ ChatApi.FetchOutcome.ok body) :
    (ChatApi.sendChatMessage msg wd now transport).success = false ∧
    ((ChatApi.sendChatMessage msg wd now transport).error).isSome = true := by
  cases hoc : transport (ChatApi.chatRequestBody msg wd) with
  | ok body => exact absurd hoc (h body)
  | httpError status text =>
    simp only [ChatApi.sendChatMessage, hoc]
    exact ⟨rfl, rfl⟩
  | networkError m =>
    simp only [ChatApi.sendChatMessage, hoc]
    exact ⟨rfl, rfl⟩

/-- C4 witness: a concrete rejected fetch yields a structured failure. -/
theorem sendChatMessage_structured_failure_witness :
    (ChatApi.sendChatMessage "hello" none "2024-01-01T00:00:00Z"
      (fun _ => ChatApi.FetchOutcome.networkError "fetch failed")).success = false ∧
    ((ChatApi.sendChatMessage "hello" none "2024-01-01T00:00:00Z"
      (fun _ => ChatApi.FetchOutcome.networkError "fetch failed")).error).isSome = true :=
  sendChatMessage_structured_failure "hello" none "2024-01-01T00:00:00Z"
    (fun _ => ChatApi.FetchOutcome.networkError "fetch failed")
    (fun _body hbody => ChatApi.FetchOutcome.noConfusion hbody)

/-- C8 counterexample: processUIRequest, given a successful reply with
dynamic_content_enabled and a mounted window whose flag is false, writes
the process-wide window.setUseDynamicContent binding — an operation does
write a global mutable flag, contrary to the claim. -/
theorem processUIRequest_writes_window_global :
    (TsxAgent.processUIRequest TsxAgent.demoAgentReply
      (TsxAgent.WindowBinding.mounted false)).2 = TsxAgent.WindowBinding.mounted true ∧
    TsxAgent.WindowBinding.mounted true ≠ TsxAgent.WindowBinding.mounted false := by
  decide

/-- C8 amended: the enable-dynamic-UI flag is carried as the explicit
dynamic_content_enabled field of the agent ChatResponse, but the display
is enabled through the ambient window global — processUIRequest returns
the reply unchanged and writes the window binding through
setDynamicContentEnabled exactly when the reply is successful with the
flag set. -/
theorem processUIRequest_flag_channel (resp : TsxAgent.ChatResponse)
    (w : TsxAgent.WindowBinding) :
    (TsxAgent.processUIRequest resp w).1 = resp ∧
    (TsxAgent.processUIRequest resp w).2 =
      (if resp.success && resp.dynamic_content_enabled
        then TsxAgent.setDynamicContentEnabled true w else w) := by
  constructor
  · unfold TsxAgent.processUIRequest
    split
    · rfl
    · rfl
  · unfold TsxAgent.processUIRequest
    split
    · rfl
    · rfl

/-- Helper: every branch of the loop body adds at most one history entry
per unit of fuel and ends in the TERMINATED phase. -/
theorem runLoopAux_bound (registry : List String)
    (engine : List AgentLoop.HistoryEntry → AgentLoop.EngineReply)
    (exec : AgentLoop.Decision → AgentLoop.ToolResult) :
    ∀ (fuel fails : Nat) (hist : List AgentLoop.HistoryEntry) (execd : List String),
      (AgentLoop.runLoopAux registry engine exec fuel fails hist execd).history.length
          ≤ hist.length + fuel ∧
      (AgentLoop.runLoopAux registry engine exec fuel fails hist execd).phase
          = AgentLoop.LoopPhase.terminated := by
  intro fuel
  induction fuel with
  | zero =>
    intro fails hist execd
    exact ⟨Nat.le_refl _, rfl⟩
  | succ n ih =>
    intro fails hist execd
    rw [AgentLoop.runLoopAux]
    split
    · split
      · exact ⟨Nat.le_add_right _ _, rfl⟩
      · refine ⟨Nat.le_trans (ih _ _ _).1 ?_, (ih _ _ _).2⟩
        exact Nat.add_le_add_left (Nat.le_succ n) _
    · split
      · exact ⟨Nat.le_add_right _ _, rfl⟩
      · split
        · refine ⟨Nat.le_trans (ih _ _ _).1 ?_, (ih _ _ _).2⟩
          simp only [List.length_append, List.length_singleton]
          omega
        · refine ⟨Nat.le_trans (ih _ _ _).1 ?_, (ih _ _ _).2⟩
          simp only [List.length_append, List.length_singleton]
          omega

/-- C1: for every engine, executor, registry and iteration budget, the
run appends at most max_iterations history entries and ends in the
TERMINATED phase. -/
theorem run_history_bounded (registry : List String)
    (engine : List AgentLoop.HistoryEntry → AgentLoop.EngineReply)
    (exec : AgentLoop.Decision → AgentLoop.ToolResult) (maxIterations : Nat) :
    (AgentLoop.run registry engine exec maxIterations).history.length ≤ maxIterations ∧
    (AgentLoop.run registry engine exec maxIterations).phase
      = AgentLoop.LoopPhase.terminated := by
  have h := runLoopAux_bound registry engine exec maxIterations 0 [] []
  simpa [AgentLoop.run] using h

/-- Helper: every tool name in the executed list of a loop run was
already executed or is a registry member. -/
theorem runLoopAux_executed_sub (registry : List String)
    (engine : List AgentLoop.HistoryEntry → AgentLoop.EngineReply)
    (exec : AgentLoop.Decision → AgentLoop.ToolResult) :
    ∀ (fuel fails : Nat) (hist : List AgentLoop.HistoryEntry) (execd : List String)
      (t : String),
      t ∈ (AgentLoop.runLoopAux registry engine exec fuel fails hist execd).executed →
      t ∈ execd ∨ t ∈ registry := by
  intro fuel
  induction fuel with
  | zero =>
    intro fails hist execd t ht
    exact Or.inl ht
  | succ n ih =>
    intro fails hist execd t ht
    rw [AgentLoop.runLoopAux] at ht
    split at ht
    · split at ht
      · exact Or.inl ht
      · exact ih _ _ _ t ht
    · split at ht
      · exact Or.inl ht
      · split at ht
        · next d _ _ hmem =>
          rcases ih _ _ _ t ht with hin | hin
          · rcases List.mem_append.mp hin with hin2 | hin2
            · exact Or.inl hin2
            · rcases List.mem_singleton.mp hin2 with rfl
              exact Or.inr hmem
          · exact Or.inr hin
        · exact ih _ _ _ t ht

/-- C2: every tool name the loop actually executes is a registry member,
and a Decision naming an unregistered tool never reaches the executor —
that iteration records the fail-closed no-applicable-tool outcome and
the loop continues. -/
theorem run_executed_registered (registry : List String)
    (engine : List AgentLoop.HistoryEntry → AgentLoop.EngineReply)
    (exec : AgentLoop.Decision → AgentLoop.ToolResult) (maxIterations : Nat) :
    (∀ t ∈ (AgentLoop.run registry engine exec maxIterations).executed, t ∈ registry) ∧
    (∀ (fuel fails : Nat) (hist : List AgentLoop.HistoryEntry) (execd : List String)
        (d : AgentLoop.Decision),
      engine hist = AgentLoop.EngineReply.ok d →
      d.tool ∉ registry → d.tool ≠ "finish" → d.tool ≠ "respond" →
      AgentLoop.runLoopAux registry engine exec (fuel + 1) fails hist execd =
        AgentLoop.runLoopAux registry engine exec fuel 0
          (hist ++ [{ decision := d, result := AgentLoop.noToolResult,
                      timestamp := hist.length }]) execd) := by
  constructor
  · intro t ht
    rcases runLoopAux_executed_sub registry engine exec maxIterations 0 [] [] t ht with
      hin | hin
    · exact absurd hin (List.not_mem_nil t)
    · exact hin
  · intro fuel fails hist execd d hd hmem hfin hresp
    have hor : ¬(d.tool = "finish" ∨ d.tool = "respond") := by
      rintro (hx | hx)
      · exact hfin hx
      · exact hresp hx
    rw [AgentLoop.runLoopAux, hd]
    dsimp only
    rw [if_neg hor, if_neg hmem]

/-- C2 witness: a concrete two-iteration run executes exactly the
registered read_file tool, and a concrete unregistered decision takes
the fail-closed branch instead of the executor. -/
theorem run_executed_registered_witness :
    ("read_file" ∈
        (AgentLoop.run ["read_file"] AgentLoop.demoEngine AgentLoop.demoExec 3).executed ∧
      "read_file" ∈ ["read_file"]) ∧
    AgentLoop.runLoopAux ["read_file"] AgentLoop.unknownEngine AgentLoop.demoExec 1 0 [] [] =
      AgentLoop.runLoopAux ["read_file"] AgentLoop.unknownEngine AgentLoop.demoExec 0 0
        [{ decision := AgentLoop.mysteryDecision, result := AgentLoop.noToolResult,
           timestamp := 0 }] [] :=
  ⟨⟨by decide,
    (run_executed_registered ["read_file"] AgentLoop.demoEngine AgentLoop.demoExec 3).1
      "read_file" (by decide)⟩,
  (run_executed_registered ["read_file"] AgentLoop.unknownEngine AgentLoop.demoExec 1).2
    0 0 [] [] AgentLoop.mysteryDecision rfl (by decide) (by decide) (by decide)⟩

/-- C3: when the path resolved against the workspace root escapes the
root, every file operation fails with AccessDeniedError and touches no
filesystem entry at all. -/
theorem fileOps_reject_escape (fs : FileOps.Fs) (root : List String) (p : FileOps.ReqPath)
    (h : FileOps.rootPrefix root (FileOps.resolveRequest root p) = false) :
    (FileOps.readOp fs root p).outcome = Except.error FileOps.FileError.accessDenied ∧
    (FileOps.readOp fs root p).accessed = [] ∧
    (FileOps.listOp fs root p).outcome = Except.error FileOps.FileError.accessDenied ∧
    (FileOps.listOp fs root p).accessed = [] ∧
    (FileOps.deleteOp fs root p).outcome = Except.error FileOps.FileError.accessDenied ∧
    (FileOps.deleteOp fs root p).accessed = [] ∧
    ∀ content : String,
      (FileOps.writeOp fs root p content).outcome
          = Except.error FileOps.FileError.accessDenied ∧
      (FileOps.writeOp fs root p content).accessed = [] := by
  refine ⟨?_, ?_, ?_, ?_, ?_, ?_, fun content => ⟨?_, ?_⟩⟩ <;>
    simp [FileOps.readOp, FileOps.listOp, FileOps.deleteOp, FileOps.writeOp, h]

/-- C3 witness: read of ../etc/passwd against workspace root /ws resolves
to /etc/passwd, which escapes the root, so the read fails with
AccessDeniedError without touching any filesystem entry. -/
theorem fileOps_reject_escape_witness :
    FileOps.rootPrefix ["ws"] (FileOps.resolveRequest ["ws"] FileOps.passwdPath) = false ∧
    (FileOps.readOp [] ["ws"] FileOps.passwdPath).outcome
        = Except.error FileOps.FileError.accessDenied ∧
    (FileOps.readOp [] ["ws"] FileOps.passwdPath).accessed = [] :=
  ⟨by decide,
    (fileOps_reject_escape [] ["ws"] FileOps.passwdPath (by decide)).1,
    (fileOps_reject_escape [] ["ws"] FileOps.passwdPath (by decide)).2.1⟩

/-- C5: search_by_category and search_by_filename delegate to
semantic_search with the corresponding metadata filter — for every
backing index state, configuration and query, the responses and in
particular the ordered match sequences are identical. -/
theorem search_variants_delegate (apiKey indexName : Option String)
    (sim : String → String → Rat) (st : SemanticSearch.IndexState)
    (query category filename ns : String) (topK : Nat) :
    SemanticSearch.search_by_category apiKey indexName sim st query category ns topK =
      SemanticSearch.semantic_search apiKey indexName sim st query ns topK
        (some (SemanticSearch.MetaFilter.categoryEq category)) ∧
    (SemanticSearch.search_by_category apiKey indexName sim st query category ns topK).results
      = (SemanticSearch.semantic_search apiKey indexName sim st query ns topK
          (some (SemanticSearch.MetaFilter.categoryEq category))).results ∧
    SemanticSearch.search_by_filename apiKey indexName sim st query filename ns topK =
      SemanticSearch.semantic_search apiKey indexName sim st query ns topK
        (some (SemanticSearch.MetaFilter.filenameEq filename)) ∧
    (SemanticSearch.search_by_filename apiKey indexName sim st query filename ns topK).results
      = (SemanticSearch.semantic_search apiKey indexName sim st query ns topK
          (some (SemanticSearch.MetaFilter.filenameEq filename))).results :=
  ⟨rfl, rfl, rfl, rfl⟩

/-- C6: with the API key or index name absent, semantic_search returns
the structured ConfigurationError response — success false with the
error field set — while any configured search, even one with zero
matches, returns success true; the two are therefore distinguishable by
the success flag. -/
theorem semantic_search_config_error (apiKey indexName : Option String)
    (sim : String → String → Rat) (st : SemanticSearch.IndexState)
    (query ns : String) (topK : Nat) (filter : Option SemanticSearch.MetaFilter)
    (h : apiKey = none ∨ indexName = none) :
    (SemanticSearch.semantic_search apiKey indexName sim st query ns topK filter).success
        = false ∧
    ((SemanticSearch.semantic_search apiKey indexName sim st query ns topK
        filter).error).isSome = true ∧
    ∀ (key iname : String) (st2 : SemanticSearch.IndexState),
      (SemanticSearch.semantic_search (some key) (some iname) sim st2 query ns topK
          filter).success = true := by
  have hcond : (apiKey.isNone || indexName.isNone) = true := by
    rcases h with rfl | rfl
    · simp
    · simp
  refine ⟨?_, ?_, fun key iname st2 => rfl⟩ <;>
    simp [SemanticSearch.semantic_search, hcond, SemanticSearch.configErrorResponse]

/-- C6 witness: a concrete call with a missing API key fails with the
structured configuration error, while the same call configured against
an empty index succeeds with zero matches — the success flags differ. -/
theorem semantic_search_config_error_witness :
    (SemanticSearch.semantic_search none (some "invoice-copilot") SemanticSearch.simDemo
        [] "invoice payment processing" "example-namespace" 10 none).success = false ∧
    ((SemanticSearch.semantic_search none (some "invoice-copilot") SemanticSearch.simDemo
        [] "invoice payment processing" "example-namespace" 10 none).error).isSome = true ∧
    (SemanticSearch.semantic_search (some "key") (some "invoice-copilot")
        SemanticSearch.simDemo [] "invoice payment processing" "example-namespace" 10
        none).success = true ∧
    (SemanticSearch.semantic_search (some "key") (some "invoice-copilot")
        SemanticSearch.simDemo [] "invoice payment processing" "example-namespace" 10
        none).results = [] :=
  ⟨(semantic_search_config_error none (some "invoice-copilot") SemanticSearch.simDemo
      [] "invoice payment processing" "example-namespace" 10 none (Or.inl rfl)).1,
    (semantic_search_config_error none (some "invoice-copilot") SemanticSearch.simDemo
      [] "invoice payment processing" "example-namespace" 10 none (Or.inl rfl)).2.1,
    (semantic_search_config_error none (some "invoice-copilot") SemanticSearch.simDemo
      [] "invoice payment processing" "example-namespace" 10 none (Or.inl rfl)).2.2
      "key" "invoice-copilot" [],
    rfl⟩

end InvoiceCopilot
